import Mathlib

/-!
Verification development for the Ventazo PDF microservice
(services/pdf-service/app): the dynamic color palette derivation
(quote_generator.py, class DynamicColorPalette), the section-driven
document assembly pipeline (class QuotePDFGenerator), the request schema
(schemas.py) and the HTTP handler resource flow (main.py).

The embedding is exact-rational: Python float channel arithmetic is
modelled over ℚ.  A numeric spot-check of the reference implementation
confirms that on every value reachable here (channels n/255 with
n in 0..255, interpolation amounts that are small decimal fractions) the
IEEE-double computations of the source agree with the exact-rational
results, so no claim below is sensitive to rounding.

Rational arithmetic is expressed through kernel-reducible wrappers
(qadd, qsub, qmul over mkRat) because the library addition and
multiplication on ℚ are irreducible and would block concrete evaluation;
the wrappers are proved equal to the library operations below.
-/

set_option maxRecDepth 16000

namespace Ventazo

/-- Kernel-reducible addition on ℚ. -/
def qadd (a b : ℚ) : ℚ := mkRat (a.num * b.den + b.num * a.den) (a.den * b.den)

/-- Kernel-reducible subtraction on ℚ. -/
def qsub (a b : ℚ) : ℚ := mkRat (a.num * b.den - b.num * a.den) (a.den * b.den)

/-- Kernel-reducible multiplication on ℚ. -/
def qmul (a b : ℚ) : ℚ := mkRat (a.num * b.num) (a.den * b.den)

/-- Kernel-reducible strict comparison on ℚ. -/
def qlt (a b : ℚ) : Bool := Rat.blt a b

/-- Clamp a rational into the unit interval; mirrors the two
max(0, min(1, x)) guards of DynamicColorPalette rgb-to-hex conversion
(quote_generator.py lines 88-90). -/
def clamp01 (x : ℚ) : ℚ := if qlt x 0 then 0 else if qlt 1 x then 1 else x

/-- Floor of a nonnegative rational as a natural number; mirrors the
Python int() truncation applied to the clamped (hence nonnegative)
channel value in rgb-to-hex (quote_generator.py line 91). -/
def ratFloorNat (x : ℚ) : ℕ := x.num.toNat / x.den

/-- An RGB color as stored by a reportlab HexColor: one integer per
channel, scaled by 255 from the float range 0..1.  Parsing a six-digit
hex string always produces channels in 0..255 (the predicate inRange
below); the fields are plain naturals so that the range is a proved
property of the operations, not a typing assumption. -/
structure Color where
  r : ℕ
  g : ℕ
  b : ℕ
deriving DecidableEq, Repr

/-- Each channel byte is within 0..255, i.e. the float channel value
(channel divided by 255) lies in the unit interval. -/
def Color.inRange (c : Color) : Prop := c.r ≤ 255 ∧ c.g ≤ 255 ∧ c.b ≤ 255

instance (c : Color) : Decidable c.inRange := by
  unfold Color.inRange
  infer_instance

/-- Float value of one channel byte, n / 255; mirrors hex-to-rgb
(quote_generator.py lines 82-84), where HexColor stores red, green and
blue as the byte divided by 255. -/
def chanQ (n : ℕ) : ℚ := mkRat n 255

/-- Clamp a float channel to 0..1 and truncate to a byte; the channel
part of rgb-to-hex (quote_generator.py lines 86-92). -/
def quantize (x : ℚ) : ℕ := ratFloorNat (qmul (clamp01 x) 255)

/-- Convert three float channels back to a color; mirrors rgb-to-hex
(quote_generator.py lines 86-92): clamp each channel to 0..1, multiply
by 255, truncate, and reassemble (the intermediate hex string of the
source is the same data as the three bytes). -/
def rgbToHex (r g b : ℚ) : Color := ⟨quantize r, quantize g, quantize b⟩

/-- Lighten a color by mixing with white: each channel becomes
r + (1 - r) * amount; mirrors quote_generator.py lines 94-100. -/
def lightenColor (c : Color) (amount : ℚ) : Color :=
  rgbToHex
    (qadd (chanQ c.r) (qmul (qsub 1 (chanQ c.r)) amount))
    (qadd (chanQ c.g) (qmul (qsub 1 (chanQ c.g)) amount))
    (qadd (chanQ c.b) (qmul (qsub 1 (chanQ c.b)) amount))

/-- Darken a color by scaling channels: each channel becomes
r * (1 - amount); mirrors quote_generator.py lines 102-108. -/
def darkenColor (c : Color) (amount : ℚ) : Color :=
  rgbToHex
    (qmul (chanQ c.r) (qsub 1 amount))
    (qmul (chanQ c.g) (qsub 1 amount))
    (qmul (chanQ c.b) (qsub 1 amount))

/-- Brightness adjustment dispatch: factor above 1 lightens by
factor - 1, otherwise darkens by 1 - factor; mirrors
quote_generator.py lines 110-118. -/
def adjustColor (c : Color) (factor : ℚ) : Color :=
  if qlt 1 factor then lightenColor c (qsub factor 1)
  else darkenColor c (qsub 1 factor)

/-- Simulated opacity: on the dark theme blend toward black (scale by
factor), otherwise blend toward white by 1 - factor; mirrors
quote_generator.py lines 120-133. -/
def adjustOpacity (theme : String) (c : Color) (factor : ℚ) : Color :=
  if theme = "dark" then
    rgbToHex
      (qmul (chanQ c.r) factor)
      (qmul (chanQ c.g) factor)
      (qmul (chanQ c.b) factor)
  else
    rgbToHex
      (qadd (chanQ c.r) (qmul (qsub 1 (chanQ c.r)) (qsub 1 factor)))
      (qadd (chanQ c.g) (qmul (qsub 1 (chanQ c.g)) (qsub 1 factor)))
      (qadd (chanQ c.b) (qmul (qsub 1 (chanQ c.b)) (qsub 1 factor)))

/-- Numeric value of one hexadecimal digit. -/
def hexDigitVal (c : Char) : Option ℕ :=
  if c.isDigit then some (c.toNat - 48)
  else if 97 ≤ c.toNat ∧ c.toNat ≤ 102 then some (c.toNat - 87)
  else if 65 ≤ c.toNat ∧ c.toNat ≤ 70 then some (c.toNat - 55)
  else none

/-- Parse a list of characters as a base-b natural number, all digits
required valid; mirrors the Python int(s, b) call inside HexColor. -/
def parseDigitsBase (b : ℕ) (digitVal : Char → Option ℕ) : List Char → Option ℕ
  | [] => some 0
  | l => go l 0
where
  go : List Char → ℕ → Option ℕ
    | [], acc => some acc
    | c :: cs, acc =>
      match digitVal c with
      | some v => go cs (acc * b + v)
      | none => none

/-- Numeric value of one decimal digit. -/
def decDigitVal (c : Char) : Option ℕ :=
  if c.isDigit then some (c.toNat - 48) else none

/-- Split a 24-bit value into RGB bytes; mirrors the reportlab HexColor
constructor Color(((val >> 16) and 255) / 255, ...). -/
def colorOfVal (v : ℕ) : Color := ⟨v / 65536 % 256, v / 256 % 256, v % 256⟩

/-- Parse a color string the way reportlab HexColor does for the forms
the service uses: a number-sign followed by six hex digits, a 0x-prefixed
hex numeral, or a plain decimal numeral; anything else raises in the
source and is none here.  (The three-, four- and eight-digit alpha forms
of HexColor are not exercised by this service and are not modelled.) -/
def parseHexColor (s : String) : Option Color :=
  match s.data with
  | '#' :: rest =>
    if rest.length = 6 then (parseDigitsBase 16 hexDigitVal rest).map colorOfVal
    else none
  | '0' :: 'x' :: rest =>
    if rest.length = 0 then none
    else (parseDigitsBase 16 hexDigitVal rest).map colorOfVal
  | '0' :: 'X' :: rest =>
    if rest.length = 0 then none
    else (parseDigitsBase 16 hexDigitVal rest).map colorOfVal
  | [] => none
  | l => (parseDigitsBase 10 decDigitVal l).map colorOfVal

/-- The resolved set of named colors used across one document build;
the attribute set assigned by DynamicColorPalette
(quote_generator.py lines 48-75 and 135-163). -/
structure Palette where
  BG_PRIMARY : Color
  BG_SECONDARY : Color
  BG_CARD : Color
  BG_ELEVATED : Color
  EMERALD_PRIMARY : Color
  EMERALD_LIGHT : Color
  EMERALD_DARK : Color
  EMERALD_GLOW : Color
  SECONDARY : Color
  ACCENT : Color
  TEXT_WHITE : Color
  TEXT_GRAY_100 : Color
  TEXT_GRAY_300 : Color
  TEXT_GRAY_400 : Color
  TEXT_GRAY_500 : Color
  TEXT_GRAY_600 : Color
  BORDER_DARK : Color
  BORDER_LIGHT : Color
  BORDER_SUBTLE : Color
deriving DecidableEq, Repr

/-- Assemble the full palette from the nine resolved seed colors;
mirrors quote_generator.py lines 48-75 (the body of the config branch of
DynamicColorPalette init after the seeds are parsed or derived). -/
def mkPalette (theme : String)
    (primary secondary accent background text muted border
      tableHeader tableAlt : Color) : Palette where
  BG_PRIMARY := background
  BG_SECONDARY := tableHeader
  BG_CARD := tableAlt
  BG_ELEVATED := adjustColor background (if theme = "dark" then mkRat 7 10 else mkRat 17 20)
  EMERALD_PRIMARY := primary
  EMERALD_LIGHT := lightenColor primary (mkRat 1 5)
  EMERALD_DARK := darkenColor primary (mkRat 3 10)
  EMERALD_GLOW := lightenColor primary (mkRat 2 5)
  SECONDARY := secondary
  ACCENT := accent
  TEXT_WHITE := text
  TEXT_GRAY_100 := adjustOpacity theme text (mkRat 9 10)
  TEXT_GRAY_300 := adjustOpacity theme text (mkRat 4 5)
  TEXT_GRAY_400 := muted
  TEXT_GRAY_500 := adjustOpacity theme muted (mkRat 17 20)
  TEXT_GRAY_600 := adjustOpacity theme muted (mkRat 7 10)
  BORDER_DARK := border
  BORDER_LIGHT := adjustColor border (mkRat 9 10)
  BORDER_SUBTLE := adjustColor border (mkRat 11 10)

/-- A seed configuration at the parsed level: the colors HexColor has
already accepted.  The required schema fields are plain colors; the
optional ones mirror the source truthiness checks, none meaning the
field was absent or empty so the documented derivation applies. -/
structure ColorCfg where
  primary : Color
  background : Color
  text : Color
  secondary : Option Color
  accent : Option Color
  muted : Option Color
  border : Option Color
  tableHeader : Option Color
  tableRowAlt : Option Color
deriving DecidableEq, Repr

/-- Derive the nine seeds from a parsed configuration and assemble the
palette; mirrors quote_generator.py lines 38-75 with parsing already
done (the parse layer is dynamicPaletteInit below). -/
def resolvePalette (cfg : ColorCfg) (theme : String) : Palette :=
  mkPalette theme
    cfg.primary
    (cfg.secondary.getD cfg.primary)
    (cfg.accent.getD cfg.primary)
    cfg.background
    cfg.text
    (cfg.muted.getD (adjustColor cfg.text (mkRat 3 5)))
    (cfg.border.getD (adjustColor cfg.background
      (if theme = "dark" then mkRat 4 5 else mkRat 9 10)))
    (cfg.tableHeader.getD (adjustColor cfg.background
      (if theme = "dark" then mkRat 17 20 else mkRat 19 20)))
    (cfg.tableRowAlt.getD (adjustColor cfg.background
      (if theme = "dark" then mkRat 19 20 else mkRat 49 50)))

/-- Every color valued attribute of the palette has its channels in
range. -/
def Palette.AllInRange (p : Palette) : Prop :=
  p.BG_PRIMARY.inRange ∧ p.BG_SECONDARY.inRange ∧ p.BG_CARD.inRange ∧
  p.BG_ELEVATED.inRange ∧ p.EMERALD_PRIMARY.inRange ∧
  p.EMERALD_LIGHT.inRange ∧ p.EMERALD_DARK.inRange ∧
  p.EMERALD_GLOW.inRange ∧ p.SECONDARY.inRange ∧ p.ACCENT.inRange ∧
  p.TEXT_WHITE.inRange ∧ p.TEXT_GRAY_100.inRange ∧
  p.TEXT_GRAY_300.inRange ∧ p.TEXT_GRAY_400.inRange ∧
  p.TEXT_GRAY_500.inRange ∧ p.TEXT_GRAY_600.inRange ∧
  p.BORDER_DARK.inRange ∧ p.BORDER_LIGHT.inRange ∧
  p.BORDER_SUBTLE.inRange

/-- An optional seed color, when present, has its channels in range. -/
def OptColorInRange (o : Option Color) : Prop := ∀ c, o = some c → c.inRange

instance (o : Option Color) : Decidable (OptColorInRange o) :=
  match o with
  | none => isTrue (by intro c h; cases h)
  | some c =>
    if h : c.inRange then
      isTrue (by intro d hd; injection hd with e; exact e ▸ h)
    else isFalse (fun hall => h (hall c rfl))

/-- Channel wise validity of a parsed seed configuration. -/
def ColorCfg.WellFormed (cfg : ColorCfg) : Prop :=
  cfg.primary.inRange ∧ cfg.background.inRange ∧ cfg.text.inRange ∧
  OptColorInRange cfg.secondary ∧
  OptColorInRange cfg.accent ∧
  OptColorInRange cfg.muted ∧
  OptColorInRange cfg.border ∧
  OptColorInRange cfg.tableHeader ∧
  OptColorInRange cfg.tableRowAlt

instance (cfg : ColorCfg) : Decidable cfg.WellFormed := by
  unfold ColorCfg.WellFormed
  infer_instance

/-- The ColorConfig request schema at its declared type (schemas.py
lines 176-186): five required string fields and four optional string
fields, with no format validation attached to any of them. -/
structure ColorConfigRaw where
  primary : String
  secondary : String
  accent : String
  background : String
  text : String
  muted : Option String
  border : Option String
  tableHeader : Option String
  tableRowAlt : Option String
deriving DecidableEq, Repr

/-- Pydantic validation of the ColorConfig model: the declared fields
are plain str and Optional str with no validator or pattern
(schemas.py lines 176-186), so every well typed payload is accepted
regardless of whether the strings are parseable hex colors. -/
def colorConfigSchemaAccepts (_cfg : ColorConfigRaw) : Bool := true

/-- The pydantic defaults of ColorConfig (schemas.py lines 176-186). -/
def defaultColorConfigRaw : ColorConfigRaw where
  primary := "#10b981"
  secondary := "#7c3aed"
  accent := "#14b8a6"
  background := "#0f172a"
  text := "#e5e7eb"
  muted := some "#9ca3af"
  border := some "#334155"
  tableHeader := some "#1f2937"
  tableRowAlt := some "#111827"

/-- Static dark palette: the attribute copy of VentazoColors performed
by DynamicColorPalette from-static (colors.py lines 9-80 fed through
quote_generator.py lines 135-163), written out as the resulting color
bytes. -/
def ventazoColorsPalette : Palette where
  BG_PRIMARY := ⟨15, 23, 42⟩
  BG_SECONDARY := ⟨30, 41, 59⟩
  BG_CARD := ⟨30, 41, 59⟩
  BG_ELEVATED := ⟨51, 65, 85⟩
  EMERALD_PRIMARY := ⟨16, 185, 129⟩
  EMERALD_LIGHT := ⟨52, 211, 153⟩
  EMERALD_DARK := ⟨4, 120, 87⟩
  EMERALD_GLOW := ⟨110, 231, 183⟩
  SECONDARY := ⟨124, 58, 237⟩
  ACCENT := ⟨20, 184, 166⟩
  TEXT_WHITE := ⟨255, 255, 255⟩
  TEXT_GRAY_100 := ⟨241, 245, 249⟩
  TEXT_GRAY_300 := ⟨203, 213, 225⟩
  TEXT_GRAY_400 := ⟨148, 163, 184⟩
  TEXT_GRAY_500 := ⟨100, 116, 139⟩
  TEXT_GRAY_600 := ⟨71, 85, 105⟩
  BORDER_DARK := ⟨51, 65, 85⟩
  BORDER_LIGHT := ⟨71, 85, 105⟩
  BORDER_SUBTLE := ⟨30, 41, 59⟩

/-- Static light palette: the attribute copy of VentazoColorsLight with
the hardcoded fallbacks for its missing attributes and the
TEXT_PRIMARY override block (colors.py lines 83-104 fed through
quote_generator.py lines 135-163). -/
def ventazoColorsLightPalette : Palette where
  BG_PRIMARY := ⟨255, 255, 255⟩
  BG_SECONDARY := ⟨248, 250, 252⟩
  BG_CARD := ⟨255, 255, 255⟩
  BG_ELEVATED := ⟨241, 245, 249⟩
  EMERALD_PRIMARY := ⟨16, 185, 129⟩
  EMERALD_LIGHT := ⟨52, 211, 153⟩
  EMERALD_DARK := ⟨4, 120, 87⟩
  EMERALD_GLOW := ⟨110, 231, 183⟩
  SECONDARY := ⟨124, 58, 237⟩
  ACCENT := ⟨20, 184, 166⟩
  TEXT_WHITE := ⟨15, 23, 42⟩
  TEXT_GRAY_100 := ⟨241, 245, 249⟩
  TEXT_GRAY_300 := ⟨71, 85, 105⟩
  TEXT_GRAY_400 := ⟨148, 163, 184⟩
  TEXT_GRAY_500 := ⟨148, 163, 184⟩
  TEXT_GRAY_600 := ⟨71, 85, 105⟩
  BORDER_DARK := ⟨226, 232, 240⟩
  BORDER_LIGHT := ⟨71, 85, 105⟩
  BORDER_SUBTLE := ⟨241, 245, 249⟩

/-- Result of one HexColor call: the parsed color, or the ValueError
the source would raise on a malformed string. -/
def parseColorField (field s : String) : Except String Color :=
  match parseHexColor s with
  | some c => Except.ok c
  | none => Except.error ("invalid color string for " ++ field)

/-- The DynamicColorPalette constructor (quote_generator.py
lines 33-80): with a config, parse each seed in source order (deriving
the optional ones from peers when absent or empty, matching the Python
truthiness checks) and assemble the palette; without a config, copy one
of the two static palettes selected by the theme string (the light copy
only when theme equals light, anything else falling to dark).  A parse
failure anywhere surfaces as the error of the whole construction, which
is how the ValueError raised inside the constructor behaves. -/
def dynamicPaletteInit (config : Option ColorConfigRaw) (theme : String) :
    Except String Palette :=
  match config with
  | some cfg => do
    let primary ← parseColorField "primary" cfg.primary
    let secondary ←
      if cfg.secondary = "" then pure primary
      else parseColorField "secondary" cfg.secondary
    let accent ←
      if cfg.accent = "" then pure primary
      else parseColorField "accent" cfg.accent
    let background ← parseColorField "background" cfg.background
    let text ← parseColorField "text" cfg.text
    let muted ←
      match cfg.muted with
      | some s =>
        if s = "" then pure (adjustColor text (mkRat 3 5))
        else parseColorField "muted" s
      | none => pure (adjustColor text (mkRat 3 5))
    let border ←
      match cfg.border with
      | some s =>
        if s = "" then
          pure (adjustColor background (if theme = "dark" then mkRat 4 5 else mkRat 9 10))
        else parseColorField "border" s
      | none =>
        pure (adjustColor background (if theme = "dark" then mkRat 4 5 else mkRat 9 10))
    let tableHeader ←
      match cfg.tableHeader with
      | some s =>
        if s = "" then
          pure (adjustColor background (if theme = "dark" then mkRat 17 20 else mkRat 19 20))
        else parseColorField "tableHeader" s
      | none =>
        pure (adjustColor background (if theme = "dark" then mkRat 17 20 else mkRat 19 20))
    let tableAlt ←
      match cfg.tableRowAlt with
      | some s =>
        if s = "" then
          pure (adjustColor background (if theme = "dark" then mkRat 19 20 else mkRat 49 50))
        else parseColorField "tableRowAlt" s
      | none =>
        pure (adjustColor background (if theme = "dark" then mkRat 19 20 else mkRat 49 50))
    pure (mkPalette theme primary secondary accent background text muted
      border tableHeader tableAlt)
  | none =>
    Except.ok (if theme = "light" then ventazoColorsLightPalette else ventazoColorsPalette)

/-! Document data model (schemas.py).  Optional string fields of the
pydantic models arrive through model_dump as either a string or None;
the generator only ever reads them through Python truthiness checks, in
which None and the empty string behave identically, so optional strings
are modelled as plain strings with the empty string for absent. -/

/-- One quote line (schemas.py QuoteLineItem, lines 35-49).  The
model_dump output always carries the subtotal key (pydantic default 0),
so the generator display fallback quantity times unitPrice is dead code
and the stored subtotal is what is shown. -/
structure LineItem where
  id : String := ""
  name : String := ""
  description : String := ""
  quantity : ℚ := 1
  unitPrice : ℚ := 0
  subtotal : ℚ := 0
  total : ℚ := 0
  itemOrder : Int := 0
deriving DecidableEq, Repr

/-- Billing address with both accepted field name shapes
(schemas.py BillingAddress, lines 52-60). -/
structure BillingAddress where
  line1 : String := ""
  line2 : String := ""
  street : String := ""
  city : String := ""
  state : String := ""
  postalCode : String := ""
  country : String := ""
deriving DecidableEq, Repr

/-- The quote fields the generator reads (schemas.py QuoteData,
lines 63-126). -/
structure Quote where
  id : String := ""
  quoteNumber : String := ""
  title : String := ""
  description : String := ""
  leadName : String := ""
  customerName : String := ""
  companyName : String := ""
  contactName : String := ""
  contactEmail : String := ""
  billingAddress : Option BillingAddress := none
  issueDate : String := ""
  expiryDate : String := ""
  currency : String := "MXN"
  subtotal : ℚ := 0
  discountAmount : ℚ := 0
  taxRate : ℚ := 16
  taxAmount : ℚ := 0
  total : ℚ := 0
  items : List LineItem := []
  terms : String := ""
  notes : String := ""
  createdByName : String := ""
  assignedToName : String := ""
  version : ℕ := 1
deriving DecidableEq, Repr

/-- Tenant branding data (schemas.py TenantData, lines 129-140). -/
structure Tenant where
  id : String := ""
  name : String := ""
  logoUrl : Option String := none
  phone : String := ""
  email : String := ""
  website : String := ""
  address : String := ""
deriving DecidableEq, Repr

/-- Section type enumeration (schemas.py SectionType, lines 147-155). -/
inductive SectionType where
  | cover
  | summary
  | details
  | totals
  | terms
  | signature
  | custom_text
deriving DecidableEq, Repr

/-- The per-section configuration mapping with the builder read
defaults applied: each field default equals the second argument of the
corresponding config.get call in the builders, so an absent dict key
and the default field value coincide.  (The keys columns and
showSignatureLine that appear in the default section list are never
read by any builder and are not modelled.) -/
structure SectionSettings where
  showLogo : Bool := true
  showDate : Bool := true
  showQuoteNumber : Bool := true
  showClientAddress : Bool := true
  showDescription : Bool := true
  showQuantity : Bool := true
  showUnitPrice : Bool := true
  showTotal : Bool := true
  showSubtotal : Bool := true
  showDiscount : Bool := true
  showTax : Bool := true
  termsTitle : String := "TERMINOS Y CONDICIONES"
  signatureLabel : String := "Nombre y Firma"
  showDateLine : Bool := true
  title : String := ""
  content : String := ""
deriving DecidableEq, Repr

/-- A section descriptor (schemas.py SectionConfig, lines 158-169). -/
structure SectionConfig where
  id : String
  type : SectionType
  enabled : Bool := true
  order : Int := 0
  config : SectionSettings := {}
deriving DecidableEq, Repr

/-- The compiled-in default section list
(schemas.py get_default_sections, lines 265-331); the dict entries that
differ from the builder read defaults are the terms title and the
signature label. -/
def defaultSections : List SectionConfig :=
  [⟨"cover", SectionType.cover, true, 0, {}⟩,
   ⟨"summary", SectionType.summary, true, 1, {}⟩,
   ⟨"details", SectionType.details, true, 2, {}⟩,
   ⟨"totals", SectionType.totals, true, 3, {}⟩,
   ⟨"terms", SectionType.terms, true, 4, { termsTitle := "Terminos y Condiciones" }⟩,
   ⟨"signature", SectionType.signature, true, 5, { signatureLabel := "Firma Autorizada" }⟩]

/-! Layout primitives and small rendering helpers. -/

/-- One layout primitive handed to the external rendering engine.
Paragraph and table cell contents are carried as their markup strings;
the style argument records which named paragraph or table style the
source attaches. -/
inductive Flowable where
  | spacer (width height : ℚ)
  | para (text style : String)
  | table (rows : List (List String)) (tag : String)
  | image (path : String) (width height : ℚ)
  | accentLine (width : ℚ)
  | pageBreak
deriving DecidableEq, Repr

/-- Recognize the logo image primitive. -/
def Flowable.isImage : Flowable → Bool
  | Flowable.image _ _ _ => true
  | _ => false

/-- The single quote character, kept out of string literals. -/
def sq : String := String.mk [Char.ofNat 39]

/-- Wrap a string in single quotes as the HTML-like markup of the
source does. -/
def quoted (s : String) : String := sq ++ s ++ sq

/-- Lowercase hex digit character. -/
def hexChar (n : ℕ) : Char :=
  if n < 10 then Char.ofNat (48 + n) else Char.ofNat (87 + n)

/-- Two-digit lowercase hex rendering of a channel byte (the 02x format
of the source; palette channels are always at most 255). -/
def byteHex (n : ℕ) : String := String.mk [hexChar (n / 16 % 16), hexChar (n % 16)]

/-- Hex string of a color for embedding in markup; mirrors color-hex
(quote_generator.py lines 198-203). -/
def colorHex (c : Color) : String := "#" ++ byteHex c.r ++ byteHex c.g ++ byteHex c.b

/-- Font color markup wrapper. -/
def fontColorTag (hex body : String) : String :=
  "<font color=" ++ quoted hex ++ ">" ++ body ++ "</font>"

/-- Font color and size-8 markup wrapper used for secondary lines. -/
def fontColorSize8 (hex body : String) : String :=
  "<font color=" ++ quoted hex ++ " size=" ++ quoted "8" ++ ">" ++ body ++ "</font>"

/-- Size-8 markup wrapper. -/
def fontSize8 (body : String) : String :=
  "<font size=" ++ quoted "8" ++ ">" ++ body ++ "</font>"

/-- ASCII uppercase of a string (the Python upper call on the ASCII
strings this service renders). -/
def pyUpper (s : String) : String := String.mk (s.data.map Char.toUpper)

/-- Strip leading and trailing whitespace (the Python strip call). -/
def pyStrip (s : String) : String :=
  String.mk (((s.data.dropWhile Char.isWhitespace).reverse.dropWhile Char.isWhitespace).reverse)

/-- Split a character list at newline characters. -/
def splitNlChars : List Char → List (List Char)
  | [] => [[]]
  | '\n' :: rest => [] :: splitNlChars rest
  | c :: rest =>
    match splitNlChars rest with
    | [] => [[c]]
    | t :: ts => (c :: t) :: ts

/-- Split a string on newlines, matching the Python split on a single
newline character (an empty string yields one empty piece). -/
def splitOnNewline (s : String) : List String := (splitNlChars s.data).map String.mk

/-- Insert thousands separators into a digit string, grouping by three
from the right. -/
def groupThousands (s : String) : String :=
  String.mk (go s.data.reverse).reverse
where
  go : List Char → List Char
    | a :: b :: c :: d :: rest => a :: b :: c :: ',' :: go (d :: rest)
    | l => l

/-- Two-digit rendering of a cents value. -/
def pad2 (n : ℕ) : String := if n < 10 then "0" ++ toString n else toString n

/-- Currency formatting; mirrors format-currency
(quote_generator.py lines 400-404): a dollar sign, thousands-grouped
integer part and two decimals.  The source formats an IEEE double with
round-half-even; amounts here are rounded half up, a difference only at
exact half-cent rationals, which no claim touches.  The currency code
parameter of the source is unused by its body and omitted here. -/
def formatCurrency (amount : ℚ) : String :=
  if qlt amount 0 then
    "$-" ++ mainPart (qsub 0 amount)
  else
    "$" ++ mainPart amount
where
  mainPart (a : ℚ) : String :=
    let cents := ratFloorNat (qadd (qmul a 100) (mkRat 1 2))
    groupThousands (toString (cents / 100)) ++ "." ++ pad2 (cents % 100)

/-- Display rendering of a stored numeric field (quantity, tax rate).
The source renders the Python float repr; the digits never matter to a
claim, so an exact rational rendering is used. -/
def ratToStr (x : ℚ) : String :=
  if x.den = 1 then toString x.num else toString x.num ++ "/" ++ toString x.den

/-- Date display; mirrors format-date (quote_generator.py
lines 406-414): empty input renders as a dash, an ISO date reformats to
day/month/year, anything unparseable is returned unchanged.  The
datetime range validation of the source is abstracted to the digit
pattern; no claim depends on that boundary. -/
def formatDate (s : String) : String :=
  if s = "" then "-"
  else
    match s.data with
    | y1 :: y2 :: y3 :: y4 :: '-' :: m1 :: m2 :: '-' :: d1 :: d2 :: _rest =>
      if y1.isDigit ∧ y2.isDigit ∧ y3.isDigit ∧ y4.isDigit ∧
          m1.isDigit ∧ m2.isDigit ∧ d1.isDigit ∧ d2.isDigit then
        String.mk [d1, d2, '/', m1, m2, '/', y1, y2, y3, y4]
      else s
    | _ => s

/-- First truthy string of a fallback chain, with a final default; the
Python or-chains of the cover builder. -/
def firstTruthy (l : List String) (dflt : String) : String :=
  match l with
  | [] => dflt
  | s :: rest => if s = "" then firstTruthy rest dflt else s

/-- Environment of the logo file at build time: whether the path exists
on disk and whether the reportlab Image constructor succeeds on it. -/
structure LogoEnv where
  pathExists : Bool
  imageLoads : Bool
deriving DecidableEq, Repr

/-! Section builders (quote_generator.py lines 473-885).  Each builder
is a pure function of its own config, the shared quote, tenant and
palette, and produces one self-contained run of layout primitives. -/

/-- Address display lines; mirrors the addr-parts assembly of the cover
builder (quote_generator.py lines 556-570). -/
def addressParts (ba : BillingAddress) : List String :=
  let street := if ba.street ≠ "" then ba.street else ba.line1
  (if street ≠ "" then [street] else []) ++
  (if ba.line2 ≠ "" then [ba.line2] else []) ++
  (if ba.city ≠ "" ∨ ba.state ≠ "" then
    let cs := String.intercalate ", " ([ba.city, ba.state].filter (fun s => s != ""))
    if cs ≠ "" then [cs] else []
  else []) ++
  (if ba.postalCode ≠ "" ∨ ba.country ≠ "" then
    let pc := String.intercalate " " ([ba.postalCode, ba.country].filter (fun s => s != ""))
    if pc ≠ "" then [pc] else []
  else [])

/-- The logo block of the cover builder (quote_generator.py
lines 480-487): an image and a spacer only when the flag is on, a path
was supplied, the file exists and the image constructor succeeds; any
failure inside the try block is swallowed and nothing is appended. -/
def coverLogoPart (cfg : SectionSettings) (env : LogoEnv)
    (logoPath : Option String) : List Flowable :=
  if cfg.showLogo then
    match logoPath with
    | some pth =>
      if env.pathExists then
        if env.imageLoads then
          [Flowable.image pth (mkRat 432 5) (mkRat 432 5),
           Flowable.spacer 1 (mkRat 72 5)]
        else []
      else []
    | none => []
  else []

/-- Cover page builder (quote_generator.py lines 473-615). -/
def buildCoverSection (cfg : SectionSettings) (env : LogoEnv)
    (logoPath : Option String) (q : Quote) (tenant : Option Tenant)
    (p : Palette) : List Flowable :=
  let tenantName := (tenant.map Tenant.name).getD "Empresa"
  let mutedHex := colorHex p.TEXT_GRAY_500
  let logoPart : List Flowable := coverLogoPart cfg env logoPath
  let metaText := q.quoteNumber ++ "  |  v" ++ toString q.version ++
    "  |  Emitida: " ++ formatDate q.issueDate ++
    "  |  Vigencia: " ++ formatDate q.expiryDate
  let clientName := firstTruthy [q.customerName, q.companyName, q.leadName] "Cliente"
  let assignedName := firstTruthy [q.assignedToName, q.createdByName] "Equipo de Ventas"
  let contactInfo :=
    if q.contactEmail ≠ "" then
      if q.contactName ≠ "" then q.contactName ++ "<br/>" ++ fontSize8 q.contactEmail
      else q.contactEmail
    else q.contactName
  let clientAddressLines :=
    if cfg.showClientAddress then
      match q.billingAddress with
      | some ba =>
        let parts := addressParts ba
        if parts ≠ [] then
          "<br/>" ++ fontColorSize8 mutedHex (String.intercalate " | " parts)
        else ""
      | none => ""
    else ""
  let prepFor := fontColorTag mutedHex "Preparado para" ++ "<br/>" ++
    fontColorTag (colorHex p.TEXT_WHITE) ("<b>" ++ clientName ++ "</b>") ++ "<br/>" ++
    fontColorTag mutedHex contactInfo ++ clientAddressLines
  let prepBy := fontColorTag mutedHex "Preparado por" ++ "<br/>" ++
    fontColorTag (colorHex p.EMERALD_PRIMARY) ("<b>" ++ assignedName ++ "</b>") ++ "<br/>" ++
    fontColorTag mutedHex tenantName
  [Flowable.spacer 1 72] ++ logoPart ++
  [Flowable.para (fontColorTag (colorHex p.TEXT_GRAY_400) (pyUpper tenantName)) "TenantName",
   Flowable.spacer 1 (mkRat 216 5),
   Flowable.para "COTIZACION" "HeroTitle",
   Flowable.spacer 1 (mkRat 54 5)] ++
  (if cfg.showQuoteNumber then [Flowable.para q.quoteNumber "QuoteNumber"] else []) ++
  [Flowable.spacer 1 (mkRat 108 5),
   Flowable.para q.title "HeroSubtitle",
   Flowable.spacer 1 36,
   Flowable.accentLine 144,
   Flowable.spacer 1 (mkRat 144 5)] ++
  (if cfg.showDate then
    [Flowable.para (fontColorTag mutedHex metaText) "Meta"]
  else []) ++
  [Flowable.spacer 1 36,
   Flowable.table [[prepFor, prepBy]] "prep",
   Flowable.spacer 1 36,
   Flowable.para (fontColorTag (colorHex p.TEXT_GRAY_600) "---  DOCUMENTO CONFIDENCIAL  ---") "Conf",
   Flowable.pageBreak]

/-- Summary builder (quote_generator.py lines 617-669); the config
argument is received but never read by the source. -/
def buildSummarySection (_cfg : SectionSettings) (q : Quote) (_p : Palette) :
    List Flowable :=
  [Flowable.para "RESUMEN" "SectionTitle",
   Flowable.accentLine 108,
   Flowable.spacer 1 (mkRat 72 5)] ++
  (if q.description ≠ "" then
    [Flowable.para q.description "BodyText", Flowable.spacer 1 (mkRat 72 5)]
  else []) ++
  [Flowable.table
    [[toString q.items.length, formatCurrency q.subtotal, formatCurrency q.total],
     ["Lineas", "Subtotal", "Total"]] "kpi",
   Flowable.spacer 1 (mkRat 108 5)]

/-- Displayed description of a line item: the first 80 characters plus
an ellipsis when strictly longer than 80 characters, otherwise the
string itself (quote_generator.py line 722). -/
def descDisplay (description : String) : String :=
  if 80 < description.length then description.take 80 ++ "..." else description

/-- Header row of the line item table driven by the three optional
column flags (quote_generator.py lines 694-706); the description column
is always present. -/
def detailsHeader (cfg : SectionSettings) : List String :=
  ["DESCRIPCION"] ++
  (if cfg.showQuantity then ["CANT."] else []) ++
  (if cfg.showUnitPrice then ["PRECIO UNIT."] else []) ++
  (if cfg.showTotal then ["SUBTOTAL"] else [])

/-- One line item row (quote_generator.py lines 710-734): bold name,
optional truncated description in muted small print, then the flagged
columns with the stored subtotal displayed. -/
def detailsItemRow (cfg : SectionSettings) (p : Palette) (item : LineItem) :
    List String :=
  let itemText := "<b>" ++ item.name ++ "</b>" ++
    (if cfg.showDescription ∧ item.description ≠ "" then
      "<br/>" ++ fontColorSize8 (colorHex p.TEXT_GRAY_500) (descDisplay item.description)
    else "")
  [itemText] ++
  (if cfg.showQuantity then [ratToStr item.quantity] else []) ++
  (if cfg.showUnitPrice then [formatCurrency item.unitPrice] else []) ++
  (if cfg.showTotal then [formatCurrency item.subtotal] else [])

/-- Line items builder (quote_generator.py lines 671-744). -/
def buildDetailsSection (cfg : SectionSettings) (q : Quote) (p : Palette) :
    List Flowable :=
  let intro := [Flowable.para "DETALLE" "SectionTitle",
    Flowable.accentLine 108,
    Flowable.spacer 1 (mkRat 72 5)]
  if q.items = [] then
    intro ++
      [Flowable.para (fontColorTag (colorHex p.TEXT_GRAY_400) "No hay lineas en esta cotizacion.") "Note"]
  else
    intro ++
      [Flowable.table (detailsHeader cfg :: q.items.map (detailsItemRow cfg p)) "dark",
       Flowable.spacer 1 (mkRat 72 5)]

/-- Tax line label (quote_generator.py line 766). -/
def taxLabel (rate : ℚ) : String := "IVA (" ++ ratToStr rate ++ "%)"

/-- Total line label carrying the currency code
(quote_generator.py line 769). -/
def totalRowLabel (currency : String) : String := "TOTAL (" ++ currency ++ ")"

/-- Rows of the totals table (quote_generator.py lines 756-769):
subtotal when its flag is on, discount only when flagged and the
discount amount is positive, tax only when flagged and the tax amount
is positive, and always the final total row labeled with the currency
code. -/
def buildTotalsRows (cfg : SectionSettings) (q : Quote) : List (List String) :=
  (if cfg.showSubtotal then [["Subtotal", formatCurrency q.subtotal]] else []) ++
  (if cfg.showDiscount ∧ 0 < q.discountAmount then
    [["Descuento", "-" ++ formatCurrency q.discountAmount]]
  else []) ++
  (if cfg.showTax ∧ 0 < q.taxAmount then
    [[taxLabel q.taxRate, formatCurrency q.taxAmount]]
  else []) ++
  [[totalRowLabel q.currency, formatCurrency q.total]]

/-- Totals builder (quote_generator.py lines 746-792). -/
def buildTotalsSection (cfg : SectionSettings) (q : Quote) (_p : Palette) :
    List Flowable :=
  [Flowable.table (buildTotalsRows cfg q) "totals",
   Flowable.spacer 1 (mkRat 108 5)]

/-- Terms builder (quote_generator.py lines 794-819): emits nothing
when both terms and notes are empty. -/
def buildTermsSection (cfg : SectionSettings) (q : Quote) (_p : Palette) :
    List Flowable :=
  if q.terms ≠ "" ∨ q.notes ≠ "" then
    [Flowable.para (pyUpper cfg.termsTitle) "SectionTitle",
     Flowable.accentLine 144,
     Flowable.spacer 1 (mkRat 72 5)] ++
    (if q.terms ≠ "" then
      [Flowable.para q.terms "BodyText", Flowable.spacer 1 (mkRat 54 5)]
    else []) ++
    (if q.notes ≠ "" then
      [Flowable.para ("<b>Notas:</b> " ++ q.notes) "Note"]
    else []) ++
    [Flowable.spacer 1 (mkRat 108 5)]
  else []

/-- Acceptance paragraph of the signature section; the indentation and
line breaks of the triple-quoted source literal are not reproduced. -/
def acceptanceText : String :=
  "Al firmar este documento, el cliente acepta los terminos y condiciones establecidos en esta cotizacion y autoriza el inicio de los trabajos descritos."

/-- Signature builder (quote_generator.py lines 821-864). -/
def buildSignatureSection (cfg : SectionSettings) (_q : Quote) (_p : Palette) :
    List Flowable :=
  let sigLine := "____________________________"
  let dateLine := "Fecha: _______________"
  [Flowable.para "ACEPTACION" "SectionTitle",
   Flowable.accentLine 108,
   Flowable.spacer 1 (mkRat 72 5),
   Flowable.para acceptanceText "BodyText",
   Flowable.spacer 1 (mkRat 144 5),
   Flowable.table
     ([["CLIENTE", "PROVEEDOR"], ["", ""], [sigLine, sigLine],
       [cfg.signatureLabel, cfg.signatureLabel]] ++
      (if cfg.showDateLine then [[dateLine, dateLine]] else [])) "sign"]

/-- Custom text builder (quote_generator.py lines 866-885): optional
title block, then one paragraph per nonblank line of the content. -/
def buildCustomTextSection (cfg : SectionSettings) (_q : Quote) (_p : Palette) :
    List Flowable :=
  (if cfg.title ≠ "" then
    [Flowable.para (pyUpper cfg.title) "SectionTitle",
     Flowable.accentLine 108,
     Flowable.spacer 1 (mkRat 72 5)]
  else []) ++
  (if cfg.content ≠ "" then
    ((splitOnNewline cfg.content).filter (fun l => pyStrip l != "")).map
      (fun l => Flowable.para l "BodyText") ++
    [Flowable.spacer 1 (mkRat 108 5)]
  else [])

/-- Builder dispatch (quote_generator.py lines 887-898): every value of
the closed section type enumeration has a registered builder. -/
def buildSection (q : Quote) (tenant : Option Tenant) (p : Palette)
    (env : LogoEnv) (logoPath : Option String) (s : SectionConfig) :
    List Flowable :=
  match s.type with
  | SectionType.cover => buildCoverSection s.config env logoPath q tenant p
  | SectionType.summary => buildSummarySection s.config q p
  | SectionType.details => buildDetailsSection s.config q p
  | SectionType.totals => buildTotalsSection s.config q p
  | SectionType.terms => buildTermsSection s.config q p
  | SectionType.signature => buildSignatureSection s.config q p
  | SectionType.custom_text => buildCustomTextSection s.config q p

/-- Insert a descriptor into an ascending list, placing it before the
first element whose order is not smaller; inserting the earlier-input
element this way keeps input order among equal keys. -/
def sectionInsert (x : SectionConfig) : List SectionConfig → List SectionConfig
  | [] => [x]
  | y :: ys => if y.order < x.order then y :: sectionInsert x ys else x :: y :: ys

/-- Stable ascending sort by the order key, the semantics documented
for the Python sorted builtin used at quote_generator.py lines 920-923. -/
def stableSortByOrder : List SectionConfig → List SectionConfig
  | [] => []
  | x :: xs => sectionInsert x (stableSortByOrder xs)

/-- The enabled, order-sorted section list of one generation
(quote_generator.py lines 920-923). -/
def enabledSorted (sections : List SectionConfig) : List SectionConfig :=
  stableSortByOrder (sections.filter (fun s => s.enabled))

/-- The assembled content stream (quote_generator.py lines 916-929):
iterate the enabled sections in ascending order and concatenate each
builder output onto the accumulated element list. -/
def generateContent (q : Quote) (tenant : Option Tenant) (p : Palette)
    (env : LogoEnv) (logoPath : Option String)
    (sections : List SectionConfig) : List Flowable :=
  (enabledSorted sections).foldl
    (fun acc s => acc ++ buildSection q tenant p env logoPath s) []

/-! Request schema and handler flow (schemas.py lines 221-242,
main.py lines 67-159). -/

/-- Style configuration (schemas.py StyleConfig, lines 209-214).  The
fonts and spacing members are accepted by the schema but never read by
the generator and are not modelled. -/
structure StyleConfig where
  theme : String := "dark"
  colors : Option ColorConfigRaw := none
deriving DecidableEq, Repr

/-- The generation request (schemas.py GeneratePDFRequest,
lines 221-242), including the two legacy flags. -/
structure GeneratePDFRequest where
  quote : Quote
  tenant : Option Tenant := none
  sections : List SectionConfig := []
  styles : Option StyleConfig := none
  theme : String := "dark"
  includeTerms : Bool := true
  includeSignature : Bool := true
  previewMode : Bool := false
deriving DecidableEq, Repr

/-- Everything the handler derives from a request before handing off to
the external renderer (main.py lines 74-100 feeding
quote_generator.py generate): the resolved palette, the theme string
driving page decoration, the assembled content stream, and the
suggested filename.  Palette construction may fail on malformed colors,
in which case the whole derivation is the error. -/
def handlerContent (req : GeneratePDFRequest) (env : LogoEnv)
    (logoPath : Option String) :
    Except String (List Flowable × Palette × String × String) :=
  let themeUsed := match req.styles with
    | some sc => sc.theme
    | none => req.theme
  let sections := if req.sections = [] then defaultSections else req.sections
  let paletteE := match req.styles with
    | some sc => dynamicPaletteInit sc.colors sc.theme
    | none => dynamicPaletteInit none themeUsed
  paletteE.map (fun p =>
    (generateContent req.quote req.tenant p env logoPath sections, p,
      themeUsed, req.quote.quoteNumber ++ ".pdf"))

/-- Observable outcome of one HTTP handler execution: the transport
result and whether the downloaded temporary logo file still exists when
the handler returns. -/
structure HandlerRun where
  response : Except String Unit
  logoFileRemains : Bool
deriving Repr

/-- Control flow of the generate endpoint (main.py lines 67-112).  The
logo is downloaded first when the tenant carries a logo URL (the
download helper swallows its own failures and returns no path).  The
document build then either succeeds, after which the temporary file is
removed and the response returned, or raises, in which case the except
clause re-raises as an HTTP error and the removal statement is never
reached. -/
def runGenerateQuotePdf (hasLogoUrl downloadOk : Bool)
    (buildOutcome : Except String Unit) : HandlerRun :=
  let logoDownloaded := hasLogoUrl && downloadOk
  match buildOutcome with
  | Except.ok _ => { response := Except.ok (), logoFileRemains := false }
  | Except.error e =>
    { response := Except.error ("Error generating PDF: " ++ e)
      logoFileRemains := logoDownloaded }

/-- Control flow of the preview endpoint (main.py lines 115-159), which
repeats the generate endpoint resource handling verbatim around a
base64 serialization. -/
def runPreviewQuotePdf (hasLogoUrl downloadOk : Bool)
    (buildOutcome : Except String Unit) : HandlerRun :=
  let logoDownloaded := hasLogoUrl && downloadOk
  match buildOutcome with
  | Except.ok _ => { response := Except.ok (), logoFileRemains := false }
  | Except.error e =>
    { response := Except.error ("Error generating PDF: " ++ e)
      logoFileRemains := logoDownloaded }

/-! Support lemmas. -/

theorem qadd_eq (a b : ℚ) : qadd a b = a + b := by
  have na := Rat.num_div_den a
  have nb := Rat.num_div_den b
  rw [div_eq_iff (by exact_mod_cast a.den_ne_zero)] at na
  rw [div_eq_iff (by exact_mod_cast b.den_ne_zero)] at nb
  rw [qadd, Rat.mkRat_eq_divInt, Rat.divInt_eq_div]
  push_cast
  rw [na, nb]
  rw [div_eq_iff (by positivity)]
  ring

theorem qsub_eq (a b : ℚ) : qsub a b = a - b := by
  have na := Rat.num_div_den a
  have nb := Rat.num_div_den b
  rw [div_eq_iff (by exact_mod_cast a.den_ne_zero)] at na
  rw [div_eq_iff (by exact_mod_cast b.den_ne_zero)] at nb
  rw [qsub, Rat.mkRat_eq_divInt, Rat.divInt_eq_div]
  push_cast
  rw [na, nb]
  rw [div_eq_iff (by positivity)]
  ring

theorem qmul_eq (a b : ℚ) : qmul a b = a * b := by
  have na := Rat.num_div_den a
  have nb := Rat.num_div_den b
  rw [div_eq_iff (by exact_mod_cast a.den_ne_zero)] at na
  rw [div_eq_iff (by exact_mod_cast b.den_ne_zero)] at nb
  rw [qmul, Rat.mkRat_eq_divInt, Rat.divInt_eq_div]
  push_cast
  rw [na, nb]
  rw [div_eq_iff (by positivity)]
  ring

theorem qlt_iff (a b : ℚ) : qlt a b = true ↔ a < b := Iff.rfl

theorem qlt_eq_false_iff (a b : ℚ) : qlt a b = false ↔ b ≤ a := by
  rw [← Bool.not_eq_true, qlt_iff, not_lt]

theorem chanQ_eq (n : ℕ) : chanQ n = (n : ℚ) / 255 := by
  rw [chanQ, Rat.mkRat_eq_divInt, Rat.divInt_eq_div]
  push_cast
  rfl

theorem chanQ_nonneg (n : ℕ) : 0 ≤ chanQ n := by
  rw [chanQ_eq]
  positivity

theorem chanQ_le_one {n : ℕ} (h : n ≤ 255) : chanQ n ≤ 1 := by
  rw [chanQ_eq, div_le_one (by norm_num)]
  exact_mod_cast h

theorem clamp01_le_one (x : ℚ) : clamp01 x ≤ 1 := by
  unfold clamp01
  split
  · norm_num
  split
  · exact le_refl 1
  · next h2 => exact (qlt_eq_false_iff 1 x).mp (Bool.not_eq_true _ ▸ h2)

theorem clamp01_of_mem {x : ℚ} (h0 : 0 ≤ x) (h1 : x ≤ 1) : clamp01 x = x := by
  unfold clamp01
  rw [if_neg, if_neg]
  · simp only [qlt_iff]
    exact not_lt.mpr h1
  · simp only [qlt_iff]
    exact not_lt.mpr h0

theorem ratFloorNat_le {x : ℚ} {n : ℕ} (h : x ≤ (n : ℚ)) : ratFloorNat x ≤ n := by
  have hden : 0 < x.den := x.den_pos
  have h1 : x.num ≤ (n : ℤ) * x.den := by
    rw [Rat.le_def] at h
    simpa using h
  have h2 : x.num.toNat ≤ n * x.den := by
    apply Int.toNat_le.mpr
    exact_mod_cast h1
  calc x.num.toNat / x.den ≤ n * x.den / x.den := Nat.div_le_div_right h2
    _ = n := Nat.mul_div_cancel n hden

theorem ratFloorNat_natCast (n : ℕ) : ratFloorNat (n : ℚ) = n := by
  unfold ratFloorNat
  simp

theorem quantize_le (x : ℚ) : quantize x ≤ 255 := by
  unfold quantize
  apply ratFloorNat_le
  rw [qmul_eq]
  calc clamp01 x * 255 ≤ 1 * 255 :=
        mul_le_mul_of_nonneg_right (clamp01_le_one x) (by norm_num)
    _ = (255 : ℚ) := by norm_num

theorem quantize_chanQ {n : ℕ} (h : n ≤ 255) : quantize (chanQ n) = n := by
  unfold quantize
  rw [clamp01_of_mem (chanQ_nonneg n) (chanQ_le_one h), qmul_eq, chanQ_eq,
    div_mul_cancel₀ _ (by norm_num : (255 : ℚ) ≠ 0)]
  exact ratFloorNat_natCast n

theorem quantize_one : quantize 1 = 255 := by decide

theorem quantize_zero : quantize 0 = 0 := by decide

theorem rgbToHex_inRange (r g b : ℚ) : (rgbToHex r g b).inRange :=
  ⟨quantize_le r, quantize_le g, quantize_le b⟩

theorem lightenColor_inRange (c : Color) (a : ℚ) : (lightenColor c a).inRange :=
  rgbToHex_inRange _ _ _

theorem darkenColor_inRange (c : Color) (a : ℚ) : (darkenColor c a).inRange :=
  rgbToHex_inRange _ _ _

theorem adjustColor_inRange (c : Color) (f : ℚ) : (adjustColor c f).inRange := by
  unfold adjustColor
  split
  · exact lightenColor_inRange _ _
  · exact darkenColor_inRange _ _

theorem adjustOpacity_inRange (t : String) (c : Color) (f : ℚ) :
    (adjustOpacity t c f).inRange := by
  unfold adjustOpacity
  split
  · exact rgbToHex_inRange _ _ _
  · exact rgbToHex_inRange _ _ _

theorem optColor_getD_inRange {o : Option Color} {d : Color}
    (h : OptColorInRange o) (hd : d.inRange) : (o.getD d).inRange := by
  cases o with
  | none => simpa using hd
  | some c => simpa using h c rfl

theorem mem_sectionInsert {x a : SectionConfig} {l : List SectionConfig} :
    a ∈ sectionInsert x l ↔ a = x ∨ a ∈ l := by
  induction l with
  | nil => simp [sectionInsert]
  | cons y ys ih =>
    unfold sectionInsert
    split
    · simp only [List.mem_cons, ih]
      tauto
    · simp only [List.mem_cons]

theorem mem_stableSortByOrder {a : SectionConfig} {l : List SectionConfig} :
    a ∈ stableSortByOrder l ↔ a ∈ l := by
  induction l with
  | nil => simp [stableSortByOrder]
  | cons x xs ih =>
    unfold stableSortByOrder
    rw [mem_sectionInsert, ih, List.mem_cons]

theorem pairwise_sectionInsert {x : SectionConfig} {l : List SectionConfig}
    (hl : l.Pairwise (fun a b => a.order ≤ b.order)) :
    (sectionInsert x l).Pairwise (fun a b => a.order ≤ b.order) := by
  induction l with
  | nil => simp [sectionInsert]
  | cons y ys ih =>
    rw [List.pairwise_cons] at hl
    obtain ⟨hy, hys⟩ := hl
    unfold sectionInsert
    split
    · next hlt =>
      rw [List.pairwise_cons]
      refine ⟨?_, ih hys⟩
      intro b hb
      rw [mem_sectionInsert] at hb
      rcases hb with rfl | hb
      · exact le_of_lt hlt
      · exact hy b hb
    · next hge =>
      rw [List.pairwise_cons]
      refine ⟨?_, List.pairwise_cons.mpr ⟨hy, hys⟩⟩
      intro b hb
      rcases List.mem_cons.mp hb with rfl | hb
      · exact le_of_not_lt hge
      · exact le_trans (le_of_not_lt hge) (hy b hb)

theorem pairwise_stableSortByOrder (l : List SectionConfig) :
    (stableSortByOrder l).Pairwise (fun a b => a.order ≤ b.order) := by
  induction l with
  | nil => simp [stableSortByOrder]
  | cons x xs ih => exact pairwise_sectionInsert ih

theorem filter_sectionInsert (x : SectionConfig) (l : List SectionConfig) (k : Int) :
    (sectionInsert x l).filter (fun s => s.order == k) =
      if x.order = k then x :: l.filter (fun s => s.order == k)
      else l.filter (fun s => s.order == k) := by
  induction l with
  | nil =>
    by_cases hx : x.order = k <;> simp [sectionInsert, List.filter_cons, hx]
  | cons y ys ih =>
    unfold sectionInsert
    split
    · next hlt =>
      by_cases hx : x.order = k
      · have hy : ¬(y.order = k) := by
          intro hy
          rw [hy, ← hx] at hlt
          exact lt_irrefl _ hlt
        simp [List.filter_cons, ih, hx, hy]
      · by_cases hy : y.order = k <;>
          simp [List.filter_cons, ih, hx, hy]
    · by_cases hx : x.order = k <;> simp [List.filter_cons, hx]

theorem filter_stableSortByOrder (l : List SectionConfig) (k : Int) :
    (stableSortByOrder l).filter (fun s => s.order == k) =
      l.filter (fun s => s.order == k) := by
  induction l with
  | nil => rfl
  | cons x xs ih =>
    unfold stableSortByOrder
    rw [filter_sectionInsert, ih, List.filter_cons]
    by_cases hx : x.order = k <;> simp [hx]

theorem perm_sectionInsert (x : SectionConfig) (l : List SectionConfig) :
    (sectionInsert x l).Perm (x :: l) := by
  induction l with
  | nil => exact List.Perm.refl _
  | cons y ys ih =>
    unfold sectionInsert
    split
    · exact ((ih.cons y).trans (List.Perm.swap x y ys))
    · exact List.Perm.refl _

theorem perm_stableSortByOrder (l : List SectionConfig) :
    (stableSortByOrder l).Perm l := by
  induction l with
  | nil => exact List.Perm.refl _
  | cons x xs ih =>
    unfold stableSortByOrder
    exact (perm_sectionInsert x (stableSortByOrder xs)).trans (ih.cons x)

theorem foldl_append_flatten (f : SectionConfig → List Flowable)
    (l : List SectionConfig) (acc : List Flowable) :
    l.foldl (fun a s => a ++ f s) acc = acc ++ (l.map f).flatten := by
  induction l generalizing acc with
  | nil => simp
  | cons x xs ih => simp [ih, List.append_assoc]

theorem taxLabel_ne_descuento (r : ℚ) : taxLabel r ≠ "Descuento" := by
  intro h
  have h1 : (taxLabel r).data.head? = some 'I' := rfl
  rw [h] at h1
  exact absurd h1 (by decide)

theorem totalRowLabel_ne_descuento (c : String) : totalRowLabel c ≠ "Descuento" := by
  intro h
  have h1 : (totalRowLabel c).data.head? = some 'T' := rfl
  rw [h] at h1
  exact absurd h1 (by decide)

theorem subtotal_ne_taxLabel (r : ℚ) : "Subtotal" ≠ taxLabel r := by
  intro h
  have h1 : (taxLabel r).data.head? = some 'I' := rfl
  rw [← h] at h1
  exact absurd h1 (by decide)

theorem descuento_ne_taxLabel (r : ℚ) : "Descuento" ≠ taxLabel r := by
  intro h
  have h1 : (taxLabel r).data.head? = some 'I' := rfl
  rw [← h] at h1
  exact absurd h1 (by decide)

theorem totalRowLabel_ne_taxLabel (c : String) (r : ℚ) :
    totalRowLabel c ≠ taxLabel r := by
  intro h
  have h1 : (taxLabel r).data.head? = some 'I' := rfl
  have h2 : (totalRowLabel c).data.head? = some 'T' := rfl
  rw [← h, h2] at h1
  exact absurd h1 (by decide)

theorem coverLogoPart_broken (cfg : SectionSettings) (pe : Bool)
    (lp : Option String) : coverLogoPart cfg ⟨pe, false⟩ lp = [] := by
  unfold coverLogoPart
  cases lp <;> cases pe <;> split <;> rfl

theorem coverLogoPart_none (cfg : SectionSettings) (env : LogoEnv) :
    coverLogoPart cfg env none = [] := by
  unfold coverLogoPart
  split <;> rfl

/-! Claim theorems. -/

/-- C1: for every list of section descriptors and every quote, tenant
and palette, the assembly pipeline keeps exactly the descriptors with
enabled true, sorts them by integer order ascending, preserves the
input order among descriptors with equal order (the per-order filter of
the kept list equals the per-order filter of the enabled input, which
together with sortedness and the permutation property characterizes the
stable sort), and the generated content stream is the concatenation of
the builder outputs in exactly that sorted order. -/
theorem spec_C1 (sections : List SectionConfig) (q : Quote)
    (t : Option Tenant) (p : Palette) (env : LogoEnv) (lp : Option String) :
    (∀ s ∈ enabledSorted sections, s.enabled = true) ∧
    (enabledSorted sections).Pairwise (fun a b => a.order ≤ b.order) ∧
    (enabledSorted sections).Perm (sections.filter (fun s => s.enabled)) ∧
    (∀ k : Int, (enabledSorted sections).filter (fun s => s.order == k) =
      (sections.filter (fun s => s.enabled)).filter (fun s => s.order == k)) ∧
    generateContent q t p env lp sections =
      ((enabledSorted sections).map (buildSection q t p env lp)).flatten := by
  refine ⟨?_, ?_, ?_, ?_, ?_⟩
  · intro s hs
    have hm := mem_stableSortByOrder.mp hs
    exact (List.mem_filter.mp hm).2
  · exact pairwise_stableSortByOrder _
  · exact perm_stableSortByOrder _
  · intro k
    exact filter_stableSortByOrder _ k
  · unfold generateContent
    rw [foldl_append_flatten]
    simp

/-- Witness for C1 at a concrete three-descriptor list holding one
disabled descriptor and two enabled ones that share order 1: the
survivor is enabled, and the kept list filtered at order 1 matches the
enabled input filtered at order 1 (so the two equal-order survivors
keep their input order). -/
theorem spec_C1_witness :
    ((⟨"b", SectionType.terms, true, 1, {}⟩ : SectionConfig).enabled = true) ∧
    (enabledSorted
        [⟨"b", SectionType.terms, true, 1, {}⟩,
         ⟨"a", SectionType.cover, false, 0, {}⟩,
         ⟨"c", SectionType.totals, true, 1, {}⟩]).filter
        (fun s => s.order == (1 : Int)) =
      (([⟨"b", SectionType.terms, true, 1, {}⟩,
         ⟨"a", SectionType.cover, false, 0, {}⟩,
         ⟨"c", SectionType.totals, true, 1, {}⟩] :
          List SectionConfig).filter (fun s => s.enabled)).filter
        (fun s => s.order == (1 : Int)) :=
  ⟨(spec_C1
      [⟨"b", SectionType.terms, true, 1, {}⟩,
       ⟨"a", SectionType.cover, false, 0, {}⟩,
       ⟨"c", SectionType.totals, true, 1, {}⟩]
      {} none ventazoColorsPalette ⟨true, true⟩ none).1 _ (by decide),
   (spec_C1
      [⟨"b", SectionType.terms, true, 1, {}⟩,
       ⟨"a", SectionType.cover, false, 0, {}⟩,
       ⟨"c", SectionType.totals, true, 1, {}⟩]
      {} none ventazoColorsPalette ⟨true, true⟩ none).2.2.2.1 1⟩

/-- C2: darkening any in-range color by amount 0 returns the color
unchanged, lightening any color by amount 1 yields pure white, and
darkening any color by amount 1 yields pure black. -/
theorem spec_C2 (c : Color) :
    (c.inRange → darkenColor c 0 = c) ∧
    lightenColor c 1 = ⟨255, 255, 255⟩ ∧
    darkenColor c 1 = ⟨0, 0, 0⟩ := by
  obtain ⟨r, g, b⟩ := c
  refine ⟨?_, ?_, ?_⟩
  · intro h
    obtain ⟨hr, hg, hb⟩ := h
    have e : ∀ m : ℕ, qmul (chanQ m) (qsub 1 0) = chanQ m := by
      intro m
      rw [qmul_eq, qsub_eq]
      ring
    unfold darkenColor rgbToHex
    rw [e, e, e, Color.mk.injEq]
    exact ⟨quantize_chanQ hr, quantize_chanQ hg, quantize_chanQ hb⟩
  · have e : ∀ m : ℕ, qadd (chanQ m) (qmul (qsub 1 (chanQ m)) 1) = 1 := by
      intro m
      rw [qadd_eq, qmul_eq, qsub_eq]
      ring
    unfold lightenColor rgbToHex
    rw [e, e, e, Color.mk.injEq]
    exact ⟨quantize_one, quantize_one, quantize_one⟩
  · have e : ∀ m : ℕ, qmul (chanQ m) (qsub 1 1) = 0 := by
      intro m
      rw [qmul_eq, qsub_eq]
      ring
    unfold darkenColor rgbToHex
    rw [e, e, e, Color.mk.injEq]
    exact ⟨quantize_zero, quantize_zero, quantize_zero⟩

/-- Witness for C2 at the default primary color: it is in range and
darkening it by 0 returns it unchanged. -/
theorem spec_C2_witness :
    (Color.mk 16 185 129).inRange ∧
    darkenColor ⟨16, 185, 129⟩ 0 = ⟨16, 185, 129⟩ :=
  ⟨by decide, (spec_C2 ⟨16, 185, 129⟩).1 (by decide)⟩

/-- C3: for every channel-wise valid parsed seed configuration and
every theme, every color of the resolved palette has each channel
within range (division by 255 puts it in the unit interval), because
every derivation clamps before converting back to bytes; and in
particular lightening pure black by one half yields the gray with all
channels 127. -/
theorem spec_C3 :
    (∀ (cfg : ColorCfg) (theme : String), cfg.WellFormed →
      (resolvePalette cfg theme).AllInRange) ∧
    lightenColor ⟨0, 0, 0⟩ (mkRat 1 2) = ⟨127, 127, 127⟩ := by
  constructor
  · intro cfg theme h
    obtain ⟨h1, h2, h3, hs, ha, hm, hb, hth, hta⟩ := h
    exact ⟨h2,
      optColor_getD_inRange hth (adjustColor_inRange _ _),
      optColor_getD_inRange hta (adjustColor_inRange _ _),
      adjustColor_inRange _ _,
      h1,
      lightenColor_inRange _ _,
      darkenColor_inRange _ _,
      lightenColor_inRange _ _,
      optColor_getD_inRange hs h1,
      optColor_getD_inRange ha h1,
      h3,
      adjustOpacity_inRange _ _ _,
      adjustOpacity_inRange _ _ _,
      optColor_getD_inRange hm (adjustColor_inRange _ _),
      adjustOpacity_inRange _ _ _,
      adjustOpacity_inRange _ _ _,
      optColor_getD_inRange hb (adjustColor_inRange _ _),
      adjustColor_inRange _ _,
      adjustColor_inRange _ _⟩
  · decide

/-- Witness for C3 at the parsed default dark seed configuration. -/
theorem spec_C3_witness :
    ColorCfg.WellFormed
      ⟨⟨16, 185, 129⟩, ⟨15, 23, 42⟩, ⟨229, 231, 235⟩,
        some ⟨124, 58, 237⟩, some ⟨20, 184, 166⟩, some ⟨156, 163, 175⟩,
        some ⟨51, 65, 85⟩, some ⟨31, 41, 55⟩, some ⟨17, 24, 39⟩⟩ ∧
    (resolvePalette
      ⟨⟨16, 185, 129⟩, ⟨15, 23, 42⟩, ⟨229, 231, 235⟩,
        some ⟨124, 58, 237⟩, some ⟨20, 184, 166⟩, some ⟨156, 163, 175⟩,
        some ⟨51, 65, 85⟩, some ⟨31, 41, 55⟩, some ⟨17, 24, 39⟩⟩
      "dark").AllInRange :=
  ⟨by decide, spec_C3.1 _ "dark" (by decide)⟩

/-- C4: with the default totals configuration (all show flags true), a
discount row appears in the totals rows exactly when the discount
amount is positive, a tax row exactly when the tax amount is positive,
the last row is always the total row labeled with the currency code,
and any discount row sits strictly before that final total row. -/
theorem spec_C4 (q : Quote) :
    ((∃ row ∈ buildTotalsRows {} q, row.head? = some "Descuento") ↔
      0 < q.discountAmount) ∧
    ((∃ row ∈ buildTotalsRows {} q, row.head? = some (taxLabel q.taxRate)) ↔
      0 < q.taxAmount) ∧
    (buildTotalsRows {} q).getLast? =
      some [totalRowLabel q.currency, formatCurrency q.total] ∧
    (0 < q.discountAmount →
      ∃ row ∈ (buildTotalsRows {} q).dropLast, row.head? = some "Descuento") := by
  by_cases hd : 0 < q.discountAmount <;> by_cases ht : 0 < q.taxAmount
  · have hrows : buildTotalsRows {} q =
        [["Subtotal", formatCurrency q.subtotal],
         ["Descuento", "-" ++ formatCurrency q.discountAmount],
         [taxLabel q.taxRate, formatCurrency q.taxAmount],
         [totalRowLabel q.currency, formatCurrency q.total]] := by
      unfold buildTotalsRows
      rw [if_pos rfl, if_pos ⟨rfl, hd⟩, if_pos ⟨rfl, ht⟩]
      rfl
    rw [hrows]
    refine ⟨iff_of_true ⟨["Descuento", "-" ++ formatCurrency q.discountAmount],
        by simp, rfl⟩ hd,
      iff_of_true ⟨[taxLabel q.taxRate, formatCurrency q.taxAmount],
        by simp, rfl⟩ ht,
      rfl, ?_⟩
    intro _
    exact ⟨["Descuento", "-" ++ formatCurrency q.discountAmount], by simp, rfl⟩
  · have hrows : buildTotalsRows {} q =
        [["Subtotal", formatCurrency q.subtotal],
         ["Descuento", "-" ++ formatCurrency q.discountAmount],
         [totalRowLabel q.currency, formatCurrency q.total]] := by
      unfold buildTotalsRows
      rw [if_pos rfl, if_pos ⟨rfl, hd⟩, if_neg (fun hc => ht hc.2)]
      rfl
    rw [hrows]
    refine ⟨iff_of_true ⟨["Descuento", "-" ++ formatCurrency q.discountAmount],
        by simp, rfl⟩ hd, iff_of_false ?_ ht, rfl, ?_⟩
    · rintro ⟨row, hmem, hhead⟩
      simp only [List.mem_cons, List.not_mem_nil, or_false] at hmem
      rcases hmem with rfl | rfl | rfl
      · exact subtotal_ne_taxLabel _ (by simpa using hhead)
      · exact descuento_ne_taxLabel _ (by simpa using hhead)
      · exact totalRowLabel_ne_taxLabel _ _ (by simpa using hhead)
    · intro _
      exact ⟨["Descuento", "-" ++ formatCurrency q.discountAmount], by simp, rfl⟩
  · have hrows : buildTotalsRows {} q =
        [["Subtotal", formatCurrency q.subtotal],
         [taxLabel q.taxRate, formatCurrency q.taxAmount],
         [totalRowLabel q.currency, formatCurrency q.total]] := by
      unfold buildTotalsRows
      rw [if_pos rfl, if_neg (fun hc => hd hc.2), if_pos ⟨rfl, ht⟩]
      rfl
    rw [hrows]
    refine ⟨iff_of_false ?_ hd,
      iff_of_true ⟨[taxLabel q.taxRate, formatCurrency q.taxAmount],
        by simp, rfl⟩ ht,
      rfl, fun hd0 => absurd hd0 hd⟩
    rintro ⟨row, hmem, hhead⟩
    simp only [List.mem_cons, List.not_mem_nil, or_false] at hmem
    rcases hmem with rfl | rfl | rfl
    · simp at hhead
    · exact taxLabel_ne_descuento _ (by simpa using hhead)
    · exact totalRowLabel_ne_descuento _ (by simpa using hhead)
  · have hrows : buildTotalsRows {} q =
        [["Subtotal", formatCurrency q.subtotal],
         [totalRowLabel q.currency, formatCurrency q.total]] := by
      unfold buildTotalsRows
      rw [if_pos rfl, if_neg (fun hc => hd hc.2), if_neg (fun hc => ht hc.2)]
      rfl
    rw [hrows]
    refine ⟨iff_of_false ?_ hd, iff_of_false ?_ ht, rfl,
      fun hd0 => absurd hd0 hd⟩
    · rintro ⟨row, hmem, hhead⟩
      simp only [List.mem_cons, List.not_mem_nil, or_false] at hmem
      rcases hmem with rfl | rfl
      · simp at hhead
      · exact totalRowLabel_ne_descuento _ (by simpa using hhead)
    · rintro ⟨row, hmem, hhead⟩
      simp only [List.mem_cons, List.not_mem_nil, or_false] at hmem
      rcases hmem with rfl | rfl
      · exact subtotal_ne_taxLabel _ (by simpa using hhead)
      · exact totalRowLabel_ne_taxLabel _ _ (by simpa using hhead)

/-- Witness for C4: at a quote with discount 50, the discount row
appears strictly before the final total row. -/
theorem spec_C4_witness :
    (0 : ℚ) < (50 : ℚ) ∧
    (∃ row ∈ (buildTotalsRows {} { discountAmount := 50 }).dropLast,
      row.head? = some "Descuento") :=
  ⟨by decide, (spec_C4 { discountAmount := 50 }).2.2.2 (by decide)⟩

/-- C5: the DETAILS builder displays a line item description truncated
to its first 80 characters plus an ellipsis exactly when the
description is longer than 80 characters (81 characters truncates, 80
does not), and the rows it emits are a pure per-item map over the
stored items — the builder reads the item data and never alters it. -/
theorem spec_C5 :
    (∀ d : String, 80 < d.length → descDisplay d = d.take 80 ++ "...") ∧
    (∀ d : String, d.length ≤ 80 → descDisplay d = d) ∧
    (∀ (cfg : SectionSettings) (q : Quote) (p : Palette), q.items ≠ [] →
      buildDetailsSection cfg q p =
        [Flowable.para "DETALLE" "SectionTitle", Flowable.accentLine 108,
         Flowable.spacer 1 (mkRat 72 5),
         Flowable.table
           (detailsHeader cfg :: q.items.map (detailsItemRow cfg p)) "dark",
         Flowable.spacer 1 (mkRat 72 5)]) := by
  refine ⟨?_, ?_, ?_⟩
  · intro d h
    unfold descDisplay
    rw [if_pos h]
  · intro d h
    unfold descDisplay
    rw [if_neg (not_lt.mpr h)]
  · intro cfg q p h
    unfold buildDetailsSection
    rw [if_neg h]
    rfl

/-- Witness for C5: an 81-character description is truncated to its
first 80 characters plus an ellipsis, an 80-character description is
displayed unchanged, and the builder emits the mapped rows on a
one-item quote. -/
theorem spec_C5_witness :
    (80 < (String.mk (List.replicate 81 'a')).length ∧
      descDisplay (String.mk (List.replicate 81 'a')) =
        (String.mk (List.replicate 81 'a')).take 80 ++ "...") ∧
    ((String.mk (List.replicate 80 'b')).length ≤ 80 ∧
      descDisplay (String.mk (List.replicate 80 'b')) =
        String.mk (List.replicate 80 'b')) ∧
    (({ items := [{ name := "X" }] } : Quote).items ≠ [] ∧
      buildDetailsSection {} { items := [{ name := "X" }] } ventazoColorsPalette =
        [Flowable.para "DETALLE" "SectionTitle", Flowable.accentLine 108,
         Flowable.spacer 1 (mkRat 72 5),
         Flowable.table
           (detailsHeader {} ::
             ({ items := [{ name := "X" }] } : Quote).items.map
               (detailsItemRow {} ventazoColorsPalette)) "dark",
         Flowable.spacer 1 (mkRat 72 5)]) :=
  ⟨⟨by decide, spec_C5.1 _ (by decide)⟩,
   ⟨by decide, spec_C5.2.1 _ (by decide)⟩,
   ⟨by decide, spec_C5.2.2 {} _ ventazoColorsPalette (by decide)⟩⟩

/-- C6 counterexample: the claim says the downloaded logo file is
released on both the success and the failure path.  At the concrete
execution where the tenant has a logo URL, the download succeeds and
the build raises, the handler finishes with the temporary logo file
still in existence, because the removal statement sits after the build
call inside the try block and is skipped when the exception propagates
to the except clause. -/
theorem spec_C6_counterexample :
    (runGenerateQuotePdf true true (Except.error "boom")).logoFileRemains = true := rfl

/-- C6 amended: the temporary logo file is removed on the success path,
but on the failure path it is left in existence whenever it was
downloaded, on both the generate and the preview endpoint. -/
theorem spec_C6_amended (hasLogo downloadOk : Bool) (e : String) :
    (runGenerateQuotePdf hasLogo downloadOk (Except.ok ())).logoFileRemains = false ∧
    (runGenerateQuotePdf hasLogo downloadOk (Except.error e)).logoFileRemains =
      (hasLogo && downloadOk) ∧
    (runPreviewQuotePdf hasLogo downloadOk (Except.ok ())).logoFileRemains = false ∧
    (runPreviewQuotePdf hasLogo downloadOk (Except.error e)).logoFileRemains =
      (hasLogo && downloadOk) :=
  ⟨rfl, rfl, rfl, rfl⟩

/-- C7 counterexample: the claim says a failed logo renders a
placeholder box where the logo would have appeared.  At a concrete
build where the logo file exists but fails to parse, the cover output
is identical to the cover of a build with no logo at all and contains
no image element whatsoever: nothing is rendered in the place of the
logo, so no placeholder box exists. -/
theorem spec_C7_counterexample :
    buildCoverSection {} ⟨true, false⟩ (some "/tmp/logo-download.png") {}
        (some { name := "Acme" }) ventazoColorsPalette =
      buildCoverSection {} ⟨true, true⟩ none {}
        (some { name := "Acme" }) ventazoColorsPalette ∧
    (buildCoverSection {} ⟨true, false⟩ (some "/tmp/logo-download.png") {}
        (some { name := "Acme" }) ventazoColorsPalette).countP
      Flowable.isImage = 0 :=
  ⟨rfl, rfl⟩

/-- C7 amended: a logo fetch or parse failure does not abort the build
— the handler response is the same as with a successful download and
the cover is produced — but the logo is silently omitted: the cover
with a broken logo equals the cover with no logo, with no placeholder
element emitted in its place. -/
theorem spec_C7_amended :
    (∀ (cfg : SectionSettings) (q : Quote) (t : Option Tenant) (p : Palette)
        (pth : String) (env2 : LogoEnv),
      buildCoverSection cfg ⟨true, false⟩ (some pth) q t p =
        buildCoverSection cfg env2 none q t p) ∧
    (∀ (h : Bool) (b : Except String Unit),
      (runGenerateQuotePdf h false b).response =
        (runGenerateQuotePdf h true b).response) := by
  constructor
  · intro cfg q t p pth env2
    simp only [buildCoverSection, coverLogoPart_broken, coverLogoPart_none]
  · intro h b
    cases b <;> rfl

/-- C8 counterexample: the claim says malformed hex surfaces as a
validation error before palette construction begins.  The concrete
request color configuration whose primary is not a color passes the
schema validation (ColorConfig declares plain strings with no
validator), and the failure only arises inside the palette constructor
as the parse error of the primary field. -/
theorem spec_C8_counterexample :
    colorConfigSchemaAccepts { defaultColorConfigRaw with primary := "not-a-color" } = true ∧
    parseHexColor "not-a-color" = none ∧
    dynamicPaletteInit (some { defaultColorConfigRaw with primary := "not-a-color" }) "dark" =
      Except.error "invalid color string for primary" :=
  ⟨rfl, by decide, rfl⟩

/-- C8 amended: the request schema accepts every color configuration,
malformed hex included, and a primary that fails to parse surfaces as
an error raised during palette construction — not as a validation error
beforehand. -/
theorem spec_C8_amended (cfg : ColorConfigRaw) (theme : String) :
    colorConfigSchemaAccepts cfg = true ∧
    (parseHexColor cfg.primary = none →
      dynamicPaletteInit (some cfg) theme =
        Except.error "invalid color string for primary") := by
  refine ⟨rfl, ?_⟩
  intro h
  simp [dynamicPaletteInit, parseColorField, h, Bind.bind, Except.bind]

/-- Witness for C8 amended at the concrete malformed configuration. -/
theorem spec_C8_witness :
    colorConfigSchemaAccepts { defaultColorConfigRaw with primary := "#zz0000" } = true ∧
    dynamicPaletteInit (some { defaultColorConfigRaw with primary := "#zz0000" }) "dark" =
      Except.error "invalid color string for primary" :=
  ⟨(spec_C8_amended { defaultColorConfigRaw with primary := "#zz0000" } "dark").1,
   (spec_C8_amended { defaultColorConfigRaw with primary := "#zz0000" } "dark").2 (by decide)⟩

/-- C9: a request whose styles set primary to ff0000 resolves a palette
whose EMERALD_LIGHT is lighten(primary, 0.2) = (255, 51, 51): every
channel is at least the corresponding channel of ff0000 and the color
differs from ff0000, hence strictly lighter. -/
theorem spec_C9 :
    (dynamicPaletteInit (some { defaultColorConfigRaw with primary := "#ff0000" }) "dark").map
        (fun p => p.EMERALD_LIGHT) = Except.ok ⟨255, 51, 51⟩ ∧
    lightenColor ⟨255, 0, 0⟩ (mkRat 1 5) = ⟨255, 51, 51⟩ ∧
    (Color.mk 255 0 0).r ≤ (Color.mk 255 51 51).r ∧
    (Color.mk 255 0 0).g ≤ (Color.mk 255 51 51).g ∧
    (Color.mk 255 0 0).b ≤ (Color.mk 255 51 51).b ∧
    Color.mk 255 51 51 ≠ Color.mk 255 0 0 :=
  ⟨rfl, by decide, by decide, by decide, by decide, by decide⟩

/-- C10: the legacy includeTerms and includeSignature request flags
have no effect on generation — two requests differing only in those
flags derive the same palette, theme, content stream and filename. -/
theorem spec_C10 (q : Quote) (t : Option Tenant) (sec : List SectionConfig)
    (st : Option StyleConfig) (th : String) (pm : Bool)
    (it1 is1 it2 is2 : Bool) (env : LogoEnv) (lp : Option String) :
    handlerContent ⟨q, t, sec, st, th, it1, is1, pm⟩ env lp =
      handlerContent ⟨q, t, sec, st, th, it2, is2, pm⟩ env lp := rfl

end Ventazo
